import Mathlib

/-!
Shallow embedding of the transactional core of the
codeguide-supabase-transactions-api repository, and proofs about the
claims its specification makes.

The embedded definitions follow the source:
* the PL/pgSQL stored procedures `handle_payment` and `get_user_balance`
  from the migration file (tables users / balances / transactions /
  mutations);
* the `GET /api/mut` route handler (`listMutations`);
* the zod `paymentRequestSchema` and the `POST /api/pay` route handler
  (`processPayment`).

Database rows use `Rat` for the SQL NUMERIC columns and `Nat` for
timestamps.  Non-deterministic values produced inside the stored
procedure (generated order id, generated UUIDs, clock) are passed in as
explicit oracle inputs; a `storageOk` flag models whether an unexpected
persistence error is raised during the write phase (such an error is
caught by the procedure's catch-all EXCEPTION handler, which rolls back
every change of the block and returns a DATABASE_ERROR JSON object).
-/

/-- Mutation type column: CHECK (type IN ('debit', 'credit')). -/
inductive MutType where
  | debit
  | credit
deriving DecidableEq, Repr

/-- A row of the `users` table.  Only the columns read by the embedded
operations (`id`, `banned`, `verified`) are carried; the remaining
columns (nama, email, role, wa, telegram, timestamps) are never read by
any embedded operation. -/
structure User where
  id : String
  banned : Bool
  verified : Bool
deriving DecidableEq, Repr

/-- A row of the `balances` table: user_id PRIMARY KEY, amount NUMERIC,
updated_at. -/
structure BalRow where
  user_id : String
  amount : ℚ
  updated_at : Nat
deriving DecidableEq, Repr

/-- A row of the `transactions` table. -/
structure Txn where
  id : String
  sender_id : String
  receiver_id : String
  amount : ℚ
  paid : Bool
  items : ℚ
  orderid : String
  bayarvia : String
  unikcode : Option ℚ
  grandtotal : ℚ
  namaproduk : Option String
  catatan : Option String
  created_at : Nat
deriving DecidableEq, Repr

/-- A row of the `mutations` table. -/
structure Mut where
  id : String
  user_id : String
  balance : ℚ
  prev_balance : ℚ
  type : MutType
  catatan : Option String
  transaction_id : Option String
  created_at : Nat
deriving DecidableEq, Repr

/-- The persistent store: the four tables the core touches. -/
structure DB where
  users : List User
  balances : List BalRow
  transactions : List Txn
  mutations : List Mut
deriving DecidableEq, Repr

/-- The JSON value returned by `handle_payment`: either the success
object built at the end of the procedure, or one of the
`json_build_object('error', ..., 'code', ...)` failure objects. -/
inductive PayResult where
  | success (transaction_id orderid : String)
      (amount sender_new_balance receiver_new_balance : ℚ)
  | failure (error code : String)
deriving DecidableEq, Repr

/-- Oracle inputs for the values `handle_payment` generates internally:
the auto-generated order id (`'TRX_' || to_char(now(),...) || ...`), the
transaction UUID returned by the INSERT, and the two mutation-row
UUIDs. -/
structure Gen where
  orderid : String
  txnId : String
  mutId1 : String
  mutId2 : String
deriving DecidableEq, Repr

/-- Full outcome of one `handle_payment` invocation: the returned JSON,
the database afterwards, and the row locks taken by the two
`SELECT ... FOR UPDATE` statements, in acquisition order (empty when a
validation failure returns before the locking point). -/
structure PayOutcome where
  result : PayResult
  db : DB
  locks : List String
deriving DecidableEq, Repr

/-- The statement `UPDATE balances SET amount = g(amount), updated_at = now WHERE
user_id = k`. -/
def updateBal (l : List BalRow) (k : String) (g : ℚ → ℚ) (now : Nat) :
    List BalRow :=
  l.map fun b =>
    if b.user_id == k then { b with amount := g b.amount, updated_at := now }
    else b

/-- The write phase of `handle_payment` (everything after the funds
check succeeds), kept as its own definition so the commit effects can
be reasoned about separately:

* `v_sender_prev_balance := v_sender_balance` (the locked sender row
  `sb`), `v_receiver_prev_balance := COALESCE(v_receiver_balance, 0)`;
* UPDATE the sender row (`amount - p_amount`);
* UPDATE the receiver row (`amount + p_amount`), or — when the receiver
  has no balance row — INSERT a fresh row with `amount = p_amount` and
  reassign `v_receiver_balance := p_amount` exactly as the source does;
* INSERT the transaction row and the debit/credit mutation rows;
* RETURN the success JSON built from the procedure's local variables
  (in particular `receiver_new_balance = v_receiver_balance +
  p_amount`). -/
def writePhase (st : DB) (p_sender_id p_receiver_id : String)
    (p_amount : ℚ) (v_final_orderid p_bayarvia : String)
    (p_namaproduk p_catatan : Option String) (gen : Gen) (now : Nat)
    (sb : BalRow) : PayOutcome :=
  let receiverRow? := st.balances.find? fun b => b.user_id == p_receiver_id
  let v_sender_balance := sb.amount
  let v_sender_prev_balance := v_sender_balance
  let v_receiver_prev_balance := (receiverRow?.map (·.amount)).getD 0
  let balances1 := updateBal st.balances p_sender_id (· - p_amount) now
  let step2 : List BalRow × ℚ :=
    match receiverRow? with
    | some rb =>
        (updateBal balances1 p_receiver_id (· + p_amount) now, rb.amount)
    | none =>
        (balances1 ++ [⟨p_receiver_id, p_amount, now⟩], p_amount)
  let balances2 := step2.1
  let v_receiver_balance := step2.2
  let txn : Txn :=
    { id := gen.txnId, sender_id := p_sender_id,
      receiver_id := p_receiver_id, amount := p_amount,
      paid := true, items := 1, orderid := v_final_orderid,
      bayarvia := p_bayarvia, unikcode := none,
      grandtotal := p_amount, namaproduk := p_namaproduk,
      catatan := p_catatan, created_at := now }
  let debitMut : Mut :=
    { id := gen.mutId1, user_id := p_sender_id,
      balance := v_sender_balance - p_amount,
      prev_balance := v_sender_prev_balance, type := .debit,
      catatan := some gen.txnId, transaction_id := some gen.txnId,
      created_at := now }
  let creditMut : Mut :=
    { id := gen.mutId2, user_id := p_receiver_id,
      balance := v_receiver_balance + p_amount,
      prev_balance := v_receiver_prev_balance, type := .credit,
      catatan := some gen.txnId, transaction_id := some gen.txnId,
      created_at := now }
  ⟨.success gen.txnId v_final_orderid p_amount
      (v_sender_balance - p_amount) (v_receiver_balance + p_amount),
    { st with
        balances := balances2,
        transactions := st.transactions ++ [txn],
        mutations := st.mutations ++ [debitMut, creditMut] },
    [p_sender_id, p_receiver_id]⟩

/-- The stored procedure `handle_payment` from the migration file,
step by step:

1. `p_amount <= 0` → INVALID_AMOUNT;
2. `p_sender_id = p_receiver_id` → SELF_TRANSFER;
3. no non-banned sender user → SENDER_NOT_FOUND;
4. no non-banned receiver user → RECEIVER_NOT_FOUND;
5. `v_final_orderid := COALESCE(p_orderid, generated)`, duplicate →
   DUPLICATE_ORDERID;
6. `SELECT amount ... FOR UPDATE` on the sender row, then on the
   receiver row;
7. sender row missing → SENDER_BALANCE_NOT_FOUND; balance below amount
   → INSUFFICIENT_FUNDS;
8. write phase (an unexpected persistence error here is caught by the
   EXCEPTION handler: block rolled back, DATABASE_ERROR returned):
   debit the sender row; credit the receiver row, or insert a fresh row
   with `amount := p_amount` and reassign `v_receiver_balance :=
   p_amount` exactly as the source does; insert the transaction row and
   the two mutation rows; return the success JSON built from the
   procedure's local variables. -/
def handle_payment (st : DB) (p_sender_id p_receiver_id : String)
    (p_amount : ℚ) (p_orderid : Option String) (p_bayarvia : String)
    (p_namaproduk p_catatan : Option String) (gen : Gen) (now : Nat)
    (storageOk : Bool) : PayOutcome :=
  if p_amount ≤ 0 then
    ⟨.failure "Amount must be greater than 0" "INVALID_AMOUNT", st, []⟩
  else if p_sender_id = p_receiver_id then
    ⟨.failure "Cannot send to yourself" "SELF_TRANSFER", st, []⟩
  else if ¬ ∃ u ∈ st.users, u.id = p_sender_id ∧ u.banned = false then
    ⟨.failure "Sender not found or banned" "SENDER_NOT_FOUND", st, []⟩
  else if ¬ ∃ u ∈ st.users, u.id = p_receiver_id ∧ u.banned = false then
    ⟨.failure "Receiver not found or banned" "RECEIVER_NOT_FOUND", st, []⟩
  else
    let v_final_orderid := p_orderid.getD gen.orderid
    if ∃ t ∈ st.transactions, t.orderid = v_final_orderid then
      ⟨.failure "Order ID already exists" "DUPLICATE_ORDERID", st, []⟩
    else
      -- SELECT ... FOR UPDATE: sender row locked first, then receiver row
      let locks := [p_sender_id, p_receiver_id]
      let senderRow? := st.balances.find? fun b => b.user_id == p_sender_id
      match senderRow? with
      | none =>
          ⟨.failure "Sender balance not found" "SENDER_BALANCE_NOT_FOUND",
            st, locks⟩
      | some sb =>
          if sb.amount < p_amount then
            ⟨.failure "Insufficient funds" "INSUFFICIENT_FUNDS", st, locks⟩
          else if storageOk = false then
            ⟨.failure "unexpected persistence error" "DATABASE_ERROR", st,
              locks⟩
          else
            writePhase st p_sender_id p_receiver_id p_amount v_final_orderid
              p_bayarvia p_namaproduk p_catatan gen now sb

/-- The stored procedure `get_user_balance`: SELECT the balance row,
`RETURN COALESCE(v_balance, 0)`. -/
def get_user_balance (st : DB) (user_id_param : String) : ℚ :=
  match st.balances.find? (fun b => b.user_id == user_id_param) with
  | some b => b.amount
  | none => 0

/-- Discriminator for the returned JSON: `result.success` truthiness as
tested by the route handler. -/
def PayResult.isSuccess : PayResult → Bool
  | .success _ _ _ _ _ => true
  | .failure _ _ => false

/-! ## The `GET /api/mut` route handler (`listMutations`) -/

/-- Response shape of `GET /api/mut`: the page of mutation rows, the
pagination block, and the summary block. -/
structure MutListResponse where
  mutations : List Mut
  limit : Nat
  offset : Nat
  total : Nat
  hasMore : Bool
  total_debits : ℚ
  total_credits : ℚ
  net_change : ℚ
deriving DecidableEq, Repr

/-- Insert a mutation into a list already ordered newest-first. -/
def insertDesc (m : Mut) : List Mut → List Mut
  | [] => [m]
  | x :: xs =>
      if x.created_at ≤ m.created_at then m :: x :: xs
      else x :: insertDesc m xs

/-- The ordering `ORDER BY created_at DESC` (`.order('created_at', ascending:
false)`). -/
def sortByCreatedDesc (l : List Mut) : List Mut :=
  l.foldr insertDesc []

/-- The optional `.eq('type', type)` filter of the count query. -/
def matchesType (ty : Option MutType) (m : Mut) : Bool :=
  match ty with
  | none => true
  | some t => m.type == t

/-- One iteration of the route's summary loop
(`mutations?.forEach(...)`): add `|balance - prev_balance|` to the
debit total for a debit row, else to the credit total. -/
def mutStep (p : ℚ × ℚ) (m : Mut) : ℚ × ℚ :=
  let changeAmount := m.balance - m.prev_balance
  match m.type with
  | .debit => (p.1 + |changeAmount|, p.2)
  | .credit => (p.1, p.2 + |changeAmount|)

/-- The route's `GET /api/mut` handler after query validation:

* the count query filters on `user_id` and — when supplied — on `type`,
  with `{ count: 'exact' }`, giving `total`;
* the data query filters on `user_id` only, orders newest first and
  takes `range(offset, offset + limit - 1)`;
* the summary loop walks the fetched page, adding `|balance -
  prev_balance|` to `total_debits` for debit rows and to
  `total_credits` otherwise, and `net_change = total_credits -
  total_debits`;
* `hasMore = offset + limit < total`. -/
def listMutations (st : DB) (userId : String) (limit offset : Nat)
    (ty : Option MutType) : MutListResponse :=
  let totalCount :=
    (st.mutations.filter fun m => m.user_id == userId && matchesType ty m).length
  let page :=
    ((sortByCreatedDesc (st.mutations.filter fun m => m.user_id == userId)).drop
        offset).take limit
  let acc : ℚ × ℚ := page.foldl mutStep (0, 0)
  { mutations := page, limit := limit, offset := offset,
    total := totalCount, hasMore := decide (offset + limit < totalCount),
    total_debits := acc.1, total_credits := acc.2,
    net_change := acc.2 - acc.1 }

/-- Total of the debit deltas `|balance - prev_balance|` over a list of
mutation rows. -/
def pageDebits (l : List Mut) : ℚ :=
  ((l.filter fun m => m.type == MutType.debit).map
    fun m => |m.balance - m.prev_balance|).sum

/-- Total of the credit deltas `|balance - prev_balance|` over a list
of mutation rows. -/
def pageCredits (l : List Mut) : ℚ :=
  ((l.filter fun m => m.type == MutType.credit).map
    fun m => |m.balance - m.prev_balance|).sum

/-- The summary the specification describes for `listMutations`: the
net change "across the filtered result set's full matching population
(not just the current page) — computed by scanning all matching
mutations' `resulting - prior` deltas".  Stated from the
specification's words, to compare the route's actual summary
against. -/
def specFullNetChange (st : DB) (userId : String)
    (ty : Option MutType) : ℚ :=
  let matching :=
    st.mutations.filter fun m => m.user_id == userId && matchesType ty m
  pageCredits matching - pageDebits matching

/-! ## The `POST /api/pay` route (`paymentRequestSchema`, handler) -/

/-- A JavaScript number as zod sees it: a finite rational, or one of
the non-finite values. -/
inductive JsNum where
  | num (q : ℚ)
  | nan
  | posInf
  | negInf
deriving DecidableEq, Repr

/-- The `amount` field checks of `paymentRequestSchema`:
`z.number().positive('...').min(0.01,'...').max(999999999.99,'...')`.
`z.number()` rejects NaN; `.max` rejects `+Infinity`; `.positive`
rejects `-Infinity`. -/
def paymentAmountOk : JsNum → Bool
  | .num q =>
      decide (0 < q) && decide ((1 : ℚ) / 100 ≤ q) &&
        decide (q ≤ (99999999999 : ℚ) / 100)
  | .nan => false
  | .posInf => false
  | .negInf => false

/-- Hexadecimal digit test, for the uuid format check. -/
def hexDigit (c : Char) : Bool :=
  c.isDigit || (decide ('a' ≤ c) && decide (c ≤ 'f')) ||
    (decide ('A' ≤ c) && decide (c ≤ 'F'))

/-- The `z.string().uuid(...)` format check: 36 characters in five
hex-digit groups 8-4-4-4-12 separated by hyphens. -/
def isUuidFormat (s : String) : Bool :=
  let cs := s.toList
  cs.length == 36 &&
    (List.range 36).all fun i =>
      let c := cs.getD i ' '
      if i == 8 || i == 13 || i == 18 || i == 23 then c == '-'
      else hexDigit c

/-- One character of `VALIDATION_PATTERNS.ORDER_ID =
/^[A-Za-z0-9_-]{3,50}$/`. -/
def orderIdChar (c : Char) : Bool :=
  c.isAlphanum || c == '_' || c == '-'

/-- Request body of `POST /api/pay`. -/
structure PayBody where
  recipientId : String
  amount : JsNum
  orderid : Option String
  bayarvia : Option String
  namaproduk : Option String
  catatan : Option String
deriving DecidableEq, Repr

/-- The zod `paymentRequestSchema` from `src/lib/api-schemas.ts`:
`recipientId` a uuid; `amount` positive, at least 0.01, at most
999999999.99 (note: no fractional-precision check — unlike
`balanceUpdateSchema`, which refines `(val * 100) % 1 === 0`);
`orderid` optionally 3–50 characters from `[A-Za-z0-9_-]`; `bayarvia`
optionally 1–50 characters; `namaproduk` at most 255; `catatan` at
most 1000. -/
def paymentRequestSchema (b : PayBody) : Bool :=
  isUuidFormat b.recipientId &&
  paymentAmountOk b.amount &&
  (match b.orderid with
   | none => true
   | some o =>
       decide (3 ≤ o.length) && decide (o.length ≤ 50) &&
         o.toList.all orderIdChar) &&
  (match b.bayarvia with
   | none => true
   | some v => decide (1 ≤ v.length) && decide (v.length ≤ 50)) &&
  (match b.namaproduk with
   | none => true
   | some s => decide (s.length ≤ 255)) &&
  (match b.catatan with
   | none => true
   | some s => decide (s.length ≤ 1000))

/-- Response of the `POST /api/pay` handler: the success data object,
or an error with a code.  The code strings of the generic error
constructors are modelled from the repository's API documentation
(`error-handler.ts` itself is not among the sources); which branch is
taken is decided entirely by the code embedded above. -/
inductive ApiResp where
  | ok (transactionId orderid : String)
      (amount senderNewBalance receiverNewBalance : ℚ)
  | err (code message : String)
deriving DecidableEq, Repr

/-- The `POST /api/pay` route handler: validate the body against
`paymentRequestSchema`; reject self-transfer; look the recipient up in
`users` (absent → not found, banned → suspended); call the
`handle_payment` RPC; map the RPC's failure codes to route errors, or
return the success data. -/
def processPayment (st : DB) (senderId : String) (b : PayBody)
    (gen : Gen) (now : Nat) (storageOk : Bool) : ApiResp × DB :=
  if paymentRequestSchema b = true then
    match b.amount with
    | .num amount =>
        if senderId = b.recipientId then
          (.err "VALIDATION_ERROR" "Cannot send payment to yourself", st)
        else
          match st.users.find? (fun u => u.id == b.recipientId) with
          | none =>
              (.err "NOT_FOUND" "Recipient account not found or is inactive",
                st)
          | some recipient =>
              if recipient.banned = true then
                (.err "FORBIDDEN" "Recipient account is suspended", st)
              else
                let o :=
                  handle_payment st senderId b.recipientId amount b.orderid
                    (b.bayarvia.getD "transfer") b.namaproduk b.catatan gen
                    now storageOk
                match o.result with
                | .success tid oid a snb rnb => (.ok tid oid a snb rnb, o.db)
                | .failure e c =>
                    (match c with
                     | "INVALID_AMOUNT" =>
                         .err "VALIDATION_ERROR" "Invalid payment amount"
                     | "SELF_TRANSFER" =>
                         .err "VALIDATION_ERROR" "Cannot send payment to yourself"
                     | "SENDER_NOT_FOUND" =>
                         .err "NOT_FOUND" "Sender account not found or is banned"
                     | "RECEIVER_NOT_FOUND" =>
                         .err "NOT_FOUND" "Recipient account not found or is banned"
                     | "SENDER_BALANCE_NOT_FOUND" =>
                         .err "NOT_FOUND" "Sender balance not found"
                     | "INSUFFICIENT_FUNDS" =>
                         .err "INSUFFICIENT_FUNDS" "Insufficient funds"
                     | "DUPLICATE_ORDERID" =>
                         .err "VALIDATION_ERROR" "Order ID already exists"
                     | _ => .err "PAYMENT_ERROR" e,
                      o.db)
    | _ => (.err "VALIDATION_ERROR" "Request body validation failed", st)
  else
    (.err "VALIDATION_ERROR" "Request body validation failed", st)

/-! ## Helper lemmas about the balances table -/

/-- Sum of the `amount` column over the `balances` table. -/
def sumB (l : List BalRow) : ℚ :=
  (l.map (·.amount)).sum

theorem sumB_cons (b : BalRow) (l : List BalRow) :
    sumB (b :: l) = b.amount + sumB l := by
  simp [sumB]

theorem sumB_append (l₁ l₂ : List BalRow) :
    sumB (l₁ ++ l₂) = sumB l₁ + sumB l₂ := by
  simp [sumB]

/-- An UPDATE whose WHERE clause matches no row leaves the table
unchanged. -/
theorem updateBal_of_no_match (l : List BalRow) (k : String) (g : ℚ → ℚ)
    (now : Nat) (h : ∀ x ∈ l, (x.user_id == k) = false) :
    updateBal l k g now = l := by
  induction l with
  | nil => rfl
  | cons x xs ih =>
      have hx := h x (List.mem_cons_self x xs)
      have ht := ih fun y hy => h y (List.mem_cons_of_mem x hy)
      simp only [updateBal, List.map_cons] at ht ⊢
      rw [hx, ht]
      simp

/-- Lookup by key (`find?`) commutes with a row transformation that keeps
every row's key. -/
theorem find?_key_map (l : List BalRow) (f : BalRow → BalRow)
    (hf : ∀ x, (f x).user_id = x.user_id) (k : String) :
    (l.map f).find? (fun b => b.user_id == k) =
      (l.find? (fun b => b.user_id == k)).map f := by
  induction l with
  | nil => rfl
  | cons x xs ih =>
      by_cases hx : (x.user_id == k) = true
      · have hfx : ((f x).user_id == k) = true := by rw [hf x]; exact hx
        rw [List.map_cons,
          @List.find?_cons_of_pos _ (fun b => b.user_id == k) (f x)
            (List.map f xs) hfx,
          @List.find?_cons_of_pos _ (fun b => b.user_id == k) x xs hx,
          Option.map_some']
      · have hfx : ¬ ((f x).user_id == k) = true := by rw [hf x]; exact hx
        rw [List.map_cons,
          @List.find?_cons_of_neg _ (fun b => b.user_id == k) (f x)
            (List.map f xs) hfx,
          @List.find?_cons_of_neg _ (fun b => b.user_id == k) x xs hx, ih]

/-- An `updateBal` keeps the key column of every row. -/
theorem userId_map_updateBal (l : List BalRow) (k : String) (g : ℚ → ℚ)
    (now : Nat) :
    (updateBal l k g now).map (·.user_id) = l.map (·.user_id) := by
  simp only [updateBal, List.map_map]
  refine List.map_congr_left fun x _ => ?_
  by_cases hx : (x.user_id == k) = true
  · rw [Function.comp_apply, if_pos hx]
  · rw [Function.comp_apply, if_neg hx]

/-- Effect of `updateBal` on the table sum, when the key column has no
duplicates (`user_id` is the table's PRIMARY KEY) and the key is
present. -/
theorem sumB_updateBal (l : List BalRow) (k : String) (g : ℚ → ℚ)
    (now : Nat) (hN : (l.map (·.user_id)).Nodup) (b : BalRow)
    (hfind : l.find? (fun x => x.user_id == k) = some b) :
    sumB (updateBal l k g now) = sumB l - b.amount + g b.amount := by
  induction l with
  | nil => simp [List.find?] at hfind
  | cons x xs ih =>
      by_cases hx : (x.user_id == k) = true
      · rw [@List.find?_cons_of_pos _ (fun y => y.user_id == k) x xs hx] at hfind
        injection hfind with hxb
        subst hxb
        have hk : x.user_id = k := by simpa using hx
        have hnotmem : x.user_id ∉ xs.map (·.user_id) :=
          (List.nodup_cons.mp hN).1
        have hxs : ∀ y ∈ xs, (y.user_id == k) = false := by
          intro y hy
          by_contra hyk
          have hyk' : y.user_id = k := by
            simpa using Bool.of_not_eq_false hyk
          apply hnotmem
          rw [hk, ← hyk']
          exact List.mem_map_of_mem (·.user_id) hy
        have htail : updateBal xs k g now = xs :=
          updateBal_of_no_match xs k g now hxs
        simp only [updateBal, List.map_cons] at htail ⊢
        rw [if_pos hx, htail, sumB_cons, sumB_cons]
        dsimp only
        ring
      · rw [@List.find?_cons_of_neg _ (fun y => y.user_id == k) x xs hx] at hfind
        have hN' := (List.nodup_cons.mp hN).2
        have hih := ih hN' hfind
        simp only [updateBal, List.map_cons] at hih ⊢
        rw [if_neg hx, sumB_cons, sumB_cons, hih]
        ring

/-- Lookup (`find?`) skips a block in which it finds nothing. -/
theorem find?_append_of_none {α : Type} (l₁ l₂ : List α) (p : α → Bool)
    (h : l₁.find? p = none) :
    (l₁ ++ l₂).find? p = l₂.find? p := by
  induction l₁ with
  | nil => rfl
  | cons x xs ih =>
      by_cases hx : p x = true
      · rw [List.find?_cons_of_pos _ hx] at h
        exact absurd h (by simp)
      · rw [List.find?_cons_of_neg _ hx] at h
        rw [List.cons_append, List.find?_cons_of_neg _ hx]
        exact ih h

/-! ## Structural lemmas about `handle_payment` -/

theorem writePhase_locks (st : DB) (s r : String) (a : ℚ) (oid bv : String)
    (np ct : Option String) (gen : Gen) (now : Nat) (sb : BalRow) :
    (writePhase st s r a oid bv np ct gen now sb).locks = [s, r] := rfl

theorem writePhase_isSuccess (st : DB) (s r : String) (a : ℚ)
    (oid bv : String) (np ct : Option String) (gen : Gen) (now : Nat)
    (sb : BalRow) :
    (writePhase st s r a oid bv np ct gen now sb).result.isSuccess = true :=
  rfl

/-- The committed write phase preserves the sum of the `balances`
table, given the PRIMARY KEY property of `user_id` and the sender row
found by the funds check. -/
theorem writePhase_sumB (st : DB) (s r : String) (a : ℚ) (oid bv : String)
    (np ct : Option String) (gen : Gen) (now : Nat) (sb : BalRow)
    (hN : (st.balances.map (·.user_id)).Nodup)
    (hs : st.balances.find? (fun x => x.user_id == s) = some sb) :
    sumB (writePhase st s r a oid bv np ct gen now sb).db.balances
      = sumB st.balances := by
  have hsum1 :
      sumB (updateBal st.balances s (· - a) now)
        = sumB st.balances - sb.amount + (sb.amount - a) :=
    sumB_updateBal st.balances s (· - a) now hN sb hs
  cases hr : st.balances.find? (fun x => x.user_id == r) with
  | none =>
      simp only [writePhase, hr]
      rw [sumB_append, hsum1]
      simp [sumB]
  | some rb =>
      have hf : ∀ x : BalRow,
          ((if x.user_id == s
              then { x with amount := x.amount - a, updated_at := now }
              else x) : BalRow).user_id = x.user_id := by
        intro x
        by_cases hx : (x.user_id == s) = true
        · rw [if_pos hx]
        · rw [if_neg hx]
      have hfind1 :
          (updateBal st.balances s (· - a) now).find?
              (fun x => x.user_id == r)
            = some (if rb.user_id == s
                then { rb with amount := rb.amount - a, updated_at := now }
                else rb) := by
        have := find?_key_map st.balances
          (fun x => if x.user_id == s
            then { x with amount := x.amount - a, updated_at := now }
            else x) hf r
        simp only [updateBal]
        rw [this, hr, Option.map_some']
      have hN1 : ((updateBal st.balances s (· - a) now).map
          (·.user_id)).Nodup := by
        rw [userId_map_updateBal]
        exact hN
      have hsum2 :=
        sumB_updateBal (updateBal st.balances s (· - a) now) r (· + a) now
          hN1 _ hfind1
      simp only [writePhase, hr]
      rw [hsum2, hsum1]
      ring

/-- When the receiver has no balance row, the committed write phase
inserts one holding exactly the transferred amount. -/
theorem writePhase_new_receiver (st : DB) (s r : String) (a : ℚ)
    (oid bv : String) (np ct : Option String) (gen : Gen) (now : Nat)
    (sb : BalRow)
    (hr : st.balances.find? (fun x => x.user_id == r) = none) :
    ((writePhase st s r a oid bv np ct gen now sb).db.balances.find?
        (fun x => x.user_id == r)).map (·.amount) = some a := by
  have hf : ∀ x : BalRow,
      ((if x.user_id == s
          then { x with amount := x.amount - a, updated_at := now }
          else x) : BalRow).user_id = x.user_id := by
    intro x
    by_cases hx : (x.user_id == s) = true
    · rw [if_pos hx]
    · rw [if_neg hx]
  have hfind1 :
      (updateBal st.balances s (· - a) now).find? (fun x => x.user_id == r)
        = none := by
    have := find?_key_map st.balances
      (fun x => if x.user_id == s
        then { x with amount := x.amount - a, updated_at := now }
        else x) hf r
    simp only [updateBal]
    rw [this, hr, Option.map_none']
  simp only [writePhase, hr]
  rw [find?_append_of_none _ _ _ hfind1]
  simp [List.find?]

/-- With the five validation gates passed, `handle_payment` reduces to
the locked section: sender-row lookup, funds check, fault check, write
phase. -/
theorem handle_payment_pass (st : DB) (s r : String) (a : ℚ)
    (oid : Option String) (bv : String) (np ct : Option String)
    (gen : Gen) (now : Nat) (ok : Bool)
    (h1 : ¬ a ≤ 0) (h2 : ¬ s = r)
    (h3 : ∃ u ∈ st.users, u.id = s ∧ u.banned = false)
    (h4 : ∃ u ∈ st.users, u.id = r ∧ u.banned = false)
    (h5 : ¬ ∃ t ∈ st.transactions, t.orderid = oid.getD gen.orderid) :
    handle_payment st s r a oid bv np ct gen now ok =
      match st.balances.find? (fun b => b.user_id == s) with
      | none =>
          ⟨.failure "Sender balance not found" "SENDER_BALANCE_NOT_FOUND",
            st, [s, r]⟩
      | some sb =>
          if sb.amount < a then
            ⟨.failure "Insufficient funds" "INSUFFICIENT_FUNDS", st, [s, r]⟩
          else if ok = false then
            ⟨.failure "unexpected persistence error" "DATABASE_ERROR", st,
              [s, r]⟩
          else
            writePhase st s r a (oid.getD gen.orderid) bv np ct gen now sb
      := by
  simp only [handle_payment, if_neg h1, if_neg h2,
    if_neg (not_not_intro h3), if_neg (not_not_intro h4), if_neg h5]

/-- Every failure return of `handle_payment` leaves the database as it
was (the early returns precede any write; an error in the write phase
is rolled back by the EXCEPTION handler). -/
theorem hp_db_of_failure (st : DB) (s r : String) (a : ℚ)
    (oid : Option String) (bv : String) (np ct : Option String)
    (gen : Gen) (now : Nat) (ok : Bool) (e c : String)
    (h : (handle_payment st s r a oid bv np ct gen now ok).result
        = .failure e c) :
    (handle_payment st s r a oid bv np ct gen now ok).db = st := by
  revert h
  simp only [handle_payment]
  repeat' split
  all_goals intro h
  all_goals try rfl
  all_goals exact absurd h (by simp [writePhase])

/-- The summary loop computes exactly the debit/credit totals of the
list it is run over. -/
theorem foldl_mutStep (l : List Mut) (d c : ℚ) :
    l.foldl mutStep (d, c) = (d + pageDebits l, c + pageCredits l) := by
  induction l generalizing d c with
  | nil => simp [pageDebits, pageCredits]
  | cons m t ih =>
      cases hmt : m.type with
      | debit =>
          have hstep : mutStep (d, c) m
              = (d + |m.balance - m.prev_balance|, c) := by
            simp [mutStep, hmt]
          rw [List.foldl_cons, hstep, ih]
          have hD : pageDebits (m :: t)
              = |m.balance - m.prev_balance| + pageDebits t := by
            simp [pageDebits, List.filter_cons, hmt]
          have hC : pageCredits (m :: t) = pageCredits t := by
            simp [pageCredits, List.filter_cons, hmt]
          rw [hD, hC]
          refine Prod.ext ?_ ?_
          · dsimp only
            ring
          · rfl
      | credit =>
          have hstep : mutStep (d, c) m
              = (d, c + |m.balance - m.prev_balance|) := by
            simp [mutStep, hmt]
          rw [List.foldl_cons, hstep, ih]
          have hD : pageDebits (m :: t) = pageDebits t := by
            simp [pageDebits, List.filter_cons, hmt]
          have hC : pageCredits (m :: t)
              = |m.balance - m.prev_balance| + pageCredits t := by
            simp [pageCredits, List.filter_cons, hmt]
          rw [hD, hC]
          refine Prod.ext ?_ ?_
          · rfl
          · dsimp only
            ring

/-- Lexicographic character-code order on identifiers: the
"lower-sorted" order of the specification's deadlock-avoidance rule. -/
def charListLt : List Char → List Char → Bool
  | [], [] => false
  | [], _ :: _ => true
  | _ :: _, [] => false
  | x :: xs, y :: ys =>
      if x < y then true
      else if y < x then false
      else charListLt xs ys

/-- Predicate `idLt a b`: identifier `a` sorts strictly lower than `b`. -/
def idLt (a b : String) : Bool :=
  charListLt a.toList b.toList

/-! ## Example stores used by the concrete theorems -/

/-- Users `s` and `r` (neither banned); `s` holds a balance of 100;
`r` has no balance row; no transactions or mutations yet. -/
def exDB1 : DB :=
  ⟨[⟨"s", false, true⟩, ⟨"r", false, true⟩], [⟨"s", 100, 0⟩], [], []⟩

/-- The specification's scenario "receiver has no prior balance row,
transfer 25.00", run against `exDB1`. -/
def exCall1 : PayOutcome :=
  handle_payment exDB1 "s" "r" 25 (some "ORD1") "transfer" none none
    ⟨"GEN", "TX1", "MU1", "MU2"⟩ 5 true

/-- Claim C1: for successful `handle_payment` calls the returned sender
balance is the prior balance minus the amount (and non-negative), and
the returned receiver balance is the prior balance (zero without a row)
plus the amount.  On the transfer of 25 from `s` (balance 100) to `r`
(no balance row) the call succeeds and the sender side behaves as
claimed (75 = 100 - 25 ≥ 0), but the returned `receiver_new_balance`
is 50 = 2 × 25, not 0 + 25 = 25 — even though the receiver balance row
the call itself stores holds 25.  The reassignment
`v_receiver_balance := p_amount` in the no-row branch makes the later
`v_receiver_balance + p_amount` count the amount twice. -/
theorem claim1_receiver_balance_bug :
    exCall1.result = .success "TX1" "ORD1" 25 75 50 ∧
    (exCall1.db.balances.find? (fun b => b.user_id == "r")).map (·.amount)
      = some 25 ∧
    (50 : ℚ) ≠ 0 + 25 := by
  refine ⟨?_, ?_, by norm_num⟩ <;>
    · simp [exCall1, exDB1, handle_payment, writePhase, updateBal,
        List.find?]
      try norm_num

/-- Claim C2: a successful call inserts one transaction row and two
mutation rows referencing it, the debit mutation moving the balance by
`-amount` and the credit mutation by `+amount`, also when the receiver
had no prior row.  On the same scenario as C1 exactly one transaction
and two mutations (both referencing it) are inserted and the debit
mutation's delta is 75 - 100 = -25 as claimed, but the credit
mutation's delta is 50 - 0 = 2 × 25, not +25. -/
theorem claim2_credit_mutation_bug :
    exCall1.db.transactions.length = 1 ∧
    exCall1.db.mutations =
      [⟨"MU1", "s", 75, 100, .debit, some "TX1", some "TX1", 5⟩,
       ⟨"MU2", "r", 50, 0, .credit, some "TX1", some "TX1", 5⟩] ∧
    ((75 : ℚ) - 100 = -25) ∧ ((50 : ℚ) - 0 = 2 * 25) ∧
    ((50 : ℚ) - 0 ≠ 25) := by
  refine ⟨?_, ?_, by norm_num, by norm_num, by norm_num⟩ <;>
    · simp [exCall1, exDB1, handle_payment, writePhase, updateBal,
        List.find?]
      try norm_num

/-- Claim C3: with the amount, self-transfer, sender, receiver and
order-identifier preconditions satisfied and the sender owning a
balance row, a (fault-free) `handle_payment` call fails with
INSUFFICIENT_FUNDS exactly when the sender's balance is strictly below
the amount, and that failure leaves every table unchanged. -/
theorem claim3_insufficient_funds_iff (st : DB) (s r : String) (a : ℚ)
    (oid : Option String) (bv : String) (np ct : Option String)
    (gen : Gen) (now : Nat)
    (h1 : ¬ a ≤ 0) (h2 : ¬ s = r)
    (h3 : ∃ u ∈ st.users, u.id = s ∧ u.banned = false)
    (h4 : ∃ u ∈ st.users, u.id = r ∧ u.banned = false)
    (h5 : ¬ ∃ t ∈ st.transactions, t.orderid = oid.getD gen.orderid)
    (sb : BalRow)
    (h6 : st.balances.find? (fun b => b.user_id == s) = some sb) :
    ((handle_payment st s r a oid bv np ct gen now true).result
        = .failure "Insufficient funds" "INSUFFICIENT_FUNDS"
      ↔ sb.amount < a) ∧
    (sb.amount < a →
      (handle_payment st s r a oid bv np ct gen now true).db = st) := by
  rw [handle_payment_pass st s r a oid bv np ct gen now true h1 h2 h3 h4 h5,
    h6]
  by_cases h7 : sb.amount < a
  · simp [if_pos h7, h7]
  · simp only [if_neg h7]
    constructor
    · constructor
      · intro hcon
        exact absurd hcon (by simp [writePhase])
      · intro hcon
        exact absurd hcon h7
    · intro hcon
      exact absurd hcon h7

/-- Witness for C3: the specification's scenario "sender balance 10.00,
transfer 10.01": the call fails with INSUFFICIENT_FUNDS and the store
is untouched. -/
def exDB3 : DB :=
  ⟨[⟨"s", false, true⟩, ⟨"r", false, true⟩],
    [⟨"s", 10, 0⟩, ⟨"r", 3, 0⟩], [], []⟩

theorem claim3_witness :
    (handle_payment exDB3 "s" "r" (1001 / 100) (some "ORD1") "transfer"
        none none ⟨"G", "T", "M1", "M2"⟩ 0 true).result
      = .failure "Insufficient funds" "INSUFFICIENT_FUNDS" ∧
    (handle_payment exDB3 "s" "r" (1001 / 100) (some "ORD1") "transfer"
        none none ⟨"G", "T", "M1", "M2"⟩ 0 true).db = exDB3 := by
  have h := claim3_insufficient_funds_iff exDB3 "s" "r" (1001 / 100)
    (some "ORD1") "transfer" none none ⟨"G", "T", "M1", "M2"⟩ 0
    (by norm_num) (by decide) (by decide) (by decide) (by decide)
    ⟨"s", 10, 0⟩ (by rfl)
  exact ⟨h.1.mpr (by norm_num), h.2 (by norm_num)⟩

/-- Claim C7: a successful `handle_payment` call leaves the sum of all
stored balance amounts unchanged (the debit and credit cancel), and
when the receiver had no balance row, the row created for it holds
exactly the transferred amount.  `user_id` is the PRIMARY KEY of
`balances`, so the key column has no duplicates. -/
theorem claim7_sum_preserved (st : DB) (s r : String) (a : ℚ)
    (oid : Option String) (bv : String) (np ct : Option String)
    (gen : Gen) (now : Nat) (ok : Bool)
    (hN : (st.balances.map (·.user_id)).Nodup)
    (hS : (handle_payment st s r a oid bv np ct gen now ok).result.isSuccess
        = true) :
    sumB (handle_payment st s r a oid bv np ct gen now ok).db.balances
        = sumB st.balances ∧
    (st.balances.find? (fun b => b.user_id == r) = none →
      ((handle_payment st s r a oid bv np ct gen now ok).db.balances.find?
          (fun b => b.user_id == r)).map (·.amount) = some a) := by
  revert hS
  simp only [handle_payment]
  repeat' split
  all_goals intro hS
  all_goals try simp [PayResult.isSuccess] at hS
  rename_i srow sb hfind hlt hok
  exact ⟨writePhase_sumB st s r a (oid.getD gen.orderid) bv np ct gen now
      sb hN hfind,
    fun hr => writePhase_new_receiver st s r a (oid.getD gen.orderid) bv
      np ct gen now sb hr⟩

/-- Witness for C7: the specification's scenario "sender balance
100.00, receiver balance 50.00, transfer 30.00" preserves the total
150. -/
def exDB7 : DB :=
  ⟨[⟨"s", false, true⟩, ⟨"r", false, true⟩],
    [⟨"s", 100, 0⟩, ⟨"r", 50, 0⟩], [], []⟩

theorem claim7_witness :
    sumB (handle_payment exDB7 "s" "r" 30 (some "OC7") "transfer" none none
        ⟨"G", "T", "M1", "M2"⟩ 1 true).db.balances = sumB exDB7.balances :=
  (claim7_sum_preserved exDB7 "s" "r" 30 (some "OC7") "transfer" none none
    ⟨"G", "T", "M1", "M2"⟩ 1 true (by decide)
    (by
      simp [handle_payment, writePhase, updateBal, List.find?, exDB7,
        PayResult.isSuccess]
      try norm_num)).1

/-- Claim C8: `get_user_balance` returns the stored amount of the
account's balance row, and zero — not an error — when no balance row
exists. -/
theorem claim8_get_user_balance (st : DB) (uid : String) :
    (∀ b : BalRow, st.balances.find? (fun x => x.user_id == uid) = some b →
      get_user_balance st uid = b.amount) ∧
    (st.balances.find? (fun x => x.user_id == uid) = none →
      get_user_balance st uid = 0) := by
  constructor
  · intro b hb
    simp [get_user_balance, hb]
  · intro hb
    simp [get_user_balance, hb]

/-- Witness for C8: an account with a stored balance of 7, and an
account with no balance row. -/
def exDB8 : DB := ⟨[], [⟨"u", 7, 0⟩], [], []⟩

def exDB8e : DB := ⟨[], [], [], []⟩

theorem claim8_witness :
    get_user_balance exDB8 "u" = 7 ∧ get_user_balance exDB8e "u" = 0 :=
  ⟨(claim8_get_user_balance exDB8 "u").1 ⟨"u", 7, 0⟩ rfl,
    (claim8_get_user_balance exDB8e "u").2 rfl⟩

/-- Claim C10: `handle_payment` always returns a JSON object — either
the success object or an object with an error message and a code — and
every failure return leaves the store exactly as it was (validation
failures return before any write; a persistence error inside the write
phase is rolled back by the catch-all EXCEPTION handler). -/
theorem claim10_failure_rollback (st : DB) (s r : String) (a : ℚ)
    (oid : Option String) (bv : String) (np ct : Option String)
    (gen : Gen) (now : Nat) (ok : Bool) :
    ((∃ tid o2 am snb rnb,
        (handle_payment st s r a oid bv np ct gen now ok).result
          = .success tid o2 am snb rnb) ∨
      (∃ e c, (handle_payment st s r a oid bv np ct gen now ok).result
          = .failure e c)) ∧
    (∀ e c, (handle_payment st s r a oid bv np ct gen now ok).result
        = .failure e c →
      (handle_payment st s r a oid bv np ct gen now ok).db = st) := by
  constructor
  · cases h : (handle_payment st s r a oid bv np ct gen now ok).result with
    | success tid o2 am snb rnb => exact Or.inl ⟨tid, o2, am, snb, rnb, rfl⟩
    | failure e c => exact Or.inr ⟨e, c, rfl⟩
  · intro e c h
    exact hp_db_of_failure st s r a oid bv np ct gen now ok e c h

/-- Witness for C10: a self-transfer attempt fails and leaves the store
untouched. -/
theorem claim10_witness :
    (handle_payment exDB7 "s" "s" 5 none "transfer" none none
        ⟨"G", "T", "M1", "M2"⟩ 0 true).db = exDB7 :=
  (claim10_failure_rollback exDB7 "s" "s" 5 none "transfer" none none
    ⟨"G", "T", "M1", "M2"⟩ 0 true).2 "Cannot send to yourself"
    "SELF_TRANSFER"
    (by
      simp [handle_payment]
      try norm_num)

/-- Amended C9: whenever a `handle_payment` invocation passes the
validation gates and reaches the two `SELECT ... FOR UPDATE`
statements, the balance-row locks are taken in the fixed order sender
first, then receiver — not in the identifier order the specification
prescribes. -/
theorem claim9_locks_sender_first (st : DB) (s r : String) (a : ℚ)
    (oid : Option String) (bv : String) (np ct : Option String)
    (gen : Gen) (now : Nat) (ok : Bool)
    (h1 : ¬ a ≤ 0) (h2 : ¬ s = r)
    (h3 : ∃ u ∈ st.users, u.id = s ∧ u.banned = false)
    (h4 : ∃ u ∈ st.users, u.id = r ∧ u.banned = false)
    (h5 : ¬ ∃ t ∈ st.transactions, t.orderid = oid.getD gen.orderid) :
    (handle_payment st s r a oid bv np ct gen now ok).locks = [s, r] := by
  rw [handle_payment_pass st s r a oid bv np ct gen now ok h1 h2 h3 h4 h5]
  repeat' split
  all_goals rfl

/-- Counterexample to C9 as stated: with sender `bb` and receiver `aa`
(and `aa` sorting strictly lower than `bb`), a call that reaches the
locking point locks `bb` first, so the first lock taken is not the one
for the lower-sorted identifier. -/
def exDB9 : DB :=
  ⟨[⟨"bb", false, true⟩, ⟨"aa", false, true⟩],
    [⟨"aa", 40, 0⟩, ⟨"bb", 60, 0⟩], [], []⟩

theorem claim9_counterexample :
    (handle_payment exDB9 "bb" "aa" 10 (some "OX9") "transfer" none none
        ⟨"G", "T", "M1", "M2"⟩ 0 true).locks.head? = some "bb" ∧
    idLt "aa" "bb" = true ∧ ("bb" : String) ≠ "aa" := by
  refine ⟨?_, by decide, by decide⟩
  simp [handle_payment, writePhase, updateBal, List.find?, exDB9]
  try norm_num

/-- Witness for the amended C9 at a concrete store. -/
theorem claim9_witness :
    (handle_payment exDB9 "bb" "aa" 10 (some "OW9") "transfer" none none
        ⟨"G", "T", "M1", "M2"⟩ 0 true).locks = ["bb", "aa"] :=
  claim9_locks_sender_first exDB9 "bb" "aa" 10 (some "OW9") "transfer"
    none none ⟨"G", "T", "M1", "M2"⟩ 0 true (by norm_num) (by decide)
    (by decide) (by decide) (by decide)

/-- An amount that is zero, negative, or non-finite. -/
def badAmount : JsNum → Prop
  | .num q => q ≤ 0
  | .nan => True
  | .posInf => True
  | .negInf => True

/-- Amended C4: a request whose amount is zero, negative, or non-finite
is rejected by `paymentRequestSchema` before any account lookup and
with the store unchanged, and the stored procedure itself likewise
rejects a non-positive amount with INVALID_AMOUNT before any lookup and
without any write; but (unlike the claim) excess fractional precision
is not rejected — see the counterexample. -/
theorem claim4_invalid_amount_gate :
    (∀ (st : DB) (senderId : String) (b : PayBody) (gen : Gen) (now : Nat)
        (ok : Bool), badAmount b.amount →
      processPayment st senderId b gen now ok
        = (.err "VALIDATION_ERROR" "Request body validation failed", st)) ∧
    (∀ (st : DB) (s r : String) (q : ℚ) (oid : Option String) (bv : String)
        (np ct : Option String) (gen : Gen) (now : Nat) (ok : Bool),
      q ≤ 0 →
      handle_payment st s r q oid bv np ct gen now ok
        = ⟨.failure "Amount must be greater than 0" "INVALID_AMOUNT", st,
            []⟩) := by
  constructor
  · intro st senderId b gen now ok hbad
    have hAm : paymentAmountOk b.amount = false := by
      cases hb : b.amount with
      | num q =>
          rw [hb] at hbad
          simp only [badAmount] at hbad
          have h0 : decide (0 < q) = false := decide_eq_false (not_lt.mpr hbad)
          simp [paymentAmountOk, h0]
      | nan => rfl
      | posInf => rfl
      | negInf => rfl
    have hschema : paymentRequestSchema b = false := by
      simp [paymentRequestSchema, hAm]
    simp [processPayment, hschema]
  · intro st s r q oid bv np ct gen now ok hq
    simp [handle_payment, if_pos hq]

/-- Stores and request for the C4 counterexample: existing sender and
receiver accounts with balance rows of 100 and 50. -/
def uuidS : String := "00000000-0000-0000-0000-0000000000aa"

def uuidR : String := "00000000-0000-0000-0000-0000000000bb"

def exDB4 : DB :=
  ⟨[⟨uuidS, false, true⟩, ⟨uuidR, false, true⟩],
    [⟨uuidS, 100, 0⟩, ⟨uuidR, 50, 0⟩], [], []⟩

/-- A request whose amount 10.001 carries three fractional digits. -/
def exBody4 : PayBody :=
  ⟨uuidR, .num (10001 / 1000), some "ORD_X1", none, none, none⟩

/-- Counterexample to C4 as stated: 10.001 is not representable with
the system's 2-decimal precision (10.001 × 100 is not an integer), yet
the request passes `paymentRequestSchema` and the whole payment
pipeline succeeds — no InvalidAmount failure, and the store is
modified (a transaction row is inserted). -/
theorem claim4_counterexample :
    (¬ ∃ n : ℤ, (10001 : ℚ) / 1000 * 100 = (n : ℚ)) ∧
    (processPayment exDB4 uuidS exBody4 ⟨"G", "T", "M1", "M2"⟩ 0 true).1
      = .ok "T" "ORD_X1" (10001 / 1000) (100 - 10001 / 1000)
          (50 + 10001 / 1000) ∧
    (processPayment exDB4 uuidS exBody4
        ⟨"G", "T", "M1", "M2"⟩ 0 true).2.transactions.length = 1 ∧
    exDB4.transactions.length = 0 := by
  have hu : isUuidFormat uuidR = true := by decide
  have hs : paymentRequestSchema
      ⟨"00000000-0000-0000-0000-0000000000bb", JsNum.num (10001 / 1000),
        some "ORD_X1", none, none, none⟩ = true := by
    simp [paymentRequestSchema, paymentAmountOk, show isUuidFormat
      "00000000-0000-0000-0000-0000000000bb" = true from hu]
    norm_num
    decide
  refine ⟨?_, ?_, ?_, rfl⟩
  · rintro ⟨n, hn⟩
    norm_num at hn
    have h1 : (10001 : ℚ) = 10 * (n : ℚ) := by linarith
    have h2 : (10001 : ℤ) = 10 * n := by exact_mod_cast h1
    omega
  · simp [processPayment, hs, exBody4, exDB4, handle_payment, writePhase,
      updateBal, List.find?, uuidS, uuidR]
    try norm_num
  · simp [processPayment, hs, exBody4, exDB4, handle_payment, writePhase,
      updateBal, List.find?, uuidS, uuidR]
    try norm_num

/-- Witness for the amended C4: amount 0 is rejected by the schema with
the store unchanged, and amount -5 is rejected by the stored procedure
with INVALID_AMOUNT. -/
theorem claim4_witness :
    processPayment exDB4 uuidS ⟨uuidR, .num 0, none, none, none, none⟩
        ⟨"G", "T", "M1", "M2"⟩ 0 true
      = (.err "VALIDATION_ERROR" "Request body validation failed", exDB4) ∧
    handle_payment exDB4 uuidS uuidR (-5) none "transfer" none none
        ⟨"G", "T", "M1", "M2"⟩ 0 true
      = ⟨.failure "Amount must be greater than 0" "INVALID_AMOUNT", exDB4,
          []⟩ :=
  ⟨claim4_invalid_amount_gate.1 exDB4 uuidS
      ⟨uuidR, .num 0, none, none, none, none⟩ ⟨"G", "T", "M1", "M2"⟩ 0 true
      (by norm_num [badAmount]),
    claim4_invalid_amount_gate.2 exDB4 uuidS uuidR (-5) none "transfer"
      none none ⟨"G", "T", "M1", "M2"⟩ 0 true (by norm_num)⟩

/-- Reduction facts for the derived `MutType` equality test. -/
theorem beq_credit_debit : (MutType.credit == MutType.debit) = false := rfl

theorem beq_debit_credit : (MutType.debit == MutType.credit) = false := rfl

theorem beq_debit_debit : (MutType.debit == MutType.debit) = true := rfl

theorem beq_credit_credit : (MutType.credit == MutType.credit) = true := rfl

/-- Amended C5: the summary returned by `listMutations` is computed
over exactly the page of mutation items returned (which is selected by
`limit` and `offset`), not over the full matching population:
`total_debits`/`total_credits` are the debit/credit delta totals of the
returned `mutations` list, and `net_change` is their difference. -/
theorem claim5_summary_is_page_summary (st : DB) (u : String)
    (lim off : Nat) (ty : Option MutType) :
    (listMutations st u lim off ty).total_debits
        = pageDebits (listMutations st u lim off ty).mutations ∧
    (listMutations st u lim off ty).total_credits
        = pageCredits (listMutations st u lim off ty).mutations ∧
    (listMutations st u lim off ty).net_change
        = pageCredits (listMutations st u lim off ty).mutations
          - pageDebits (listMutations st u lim off ty).mutations := by
  simp only [listMutations, foldl_mutStep]
  refine ⟨by simp, by simp, by simp⟩

/-- Store for the C5 counterexample: account `u` has two credit
mutations, an older one with delta 10 and a newer one with delta 5. -/
def exDB5 : DB :=
  ⟨[], [], [],
    [⟨"m1", "u", 10, 0, .credit, none, none, 1⟩,
     ⟨"m2", "u", 15, 10, .credit, none, none, 2⟩]⟩

/-- Counterexample to C5 as stated: with `limit = 1` the returned
summary's net change is 5 (the one newest page item), while the full
matching population's net change — the value the specification
prescribes — is 15. -/
theorem claim5_counterexample :
    (listMutations exDB5 "u" 1 0 none).net_change = 5 ∧
    specFullNetChange exDB5 "u" none = 15 ∧ ((5 : ℚ) ≠ 15) := by
  refine ⟨?_, ?_, by norm_num⟩
  · simp [listMutations, exDB5, sortByCreatedDesc, insertDesc, mutStep,
      matchesType, List.filter, beq_credit_debit, beq_credit_credit]
    try norm_num
  · simp [specFullNetChange, exDB5, pageDebits, pageCredits, matchesType,
      List.filter, beq_credit_debit, beq_credit_credit]
    try norm_num

/-- Store for the C6 theorem: account `u` has one debit mutation
(100 → 75) and one newer credit mutation (75 → 80). -/
def exDB6 : DB :=
  ⟨[], [], [],
    [⟨"d1", "u", 75, 100, .debit, none, none, 1⟩,
     ⟨"c1", "u", 80, 75, .credit, none, none, 2⟩]⟩

/-- Claim C6 evaluated at the failing input: requesting `type = debit`
returns `total = 1` (the count query does apply the filter), but the
returned page contains both of the account's mutations — including the
credit one — because the data query never applies the type filter. -/
theorem claim6_type_filter_bug :
    (listMutations exDB6 "u" 50 0 (some .debit)).total = 1 ∧
    (listMutations exDB6 "u" 50 0 (some .debit)).mutations.length = 2 ∧
    (listMutations exDB6 "u" 50 0 (some .debit)).mutations.any
        (fun m => m.type == MutType.credit) = true := by
  refine ⟨?_, ?_, ?_⟩ <;>
    · simp [listMutations, exDB6, sortByCreatedDesc, insertDesc,
        matchesType, List.filter, beq_credit_debit, beq_debit_debit]
      try norm_num
